import Mathlib

set_option autoImplicit false

/-!
Verification of the change-ingestion coordination subsystem of the scriptor
repository: the lease lock over the per-channel pagination cursor
(pkg/database/watchchannel_store.go), the change-feed pagination and
deduplication logic (pkg/google/drive.go), the per-document processing-stage
ledger (pkg/database/document_store.go), the SQS-driven ingestion handler and
the Google Drive webhook relay.

The DynamoDB items touched by the lease lock are modelled as association
lists of attribute values, and the conditional-update / update-expression
semantics of the store are embedded directly, since several properties hinge
on them (the conditional write behind acquire, and the expression-attribute
binding behind release).
-/

namespace Scriptor

/-- A DynamoDB attribute value, restricted to the member types the lease lock
uses: `S` (string), `N` (number) and `BOOL`. -/
inductive AttributeValue where
  | S (s : String)
  | N (n : Int)
  | BOOL (b : Bool)
deriving DecidableEq, Repr

/-- A stored DynamoDB item: a finite map from attribute names to values,
represented as an association list. -/
abbrev Item := List (String × AttributeValue)

/-- Read an attribute of an item. -/
def getAttr : Item → String → Option AttributeValue
  | [], _ => none
  | (k', v') :: rest, k => if k' = k then some v' else getAttr rest k

/-- Set an attribute of an item (DynamoDB `SET`): overwrite in place if the
name is present, append otherwise. -/
def setAttr : Item → String → AttributeValue → Item
  | [], k, v => [(k, v)]
  | (k', v') :: rest, k, v =>
    if k' = k then (k, v) :: rest else (k', v') :: setAttr rest k v

theorem getAttr_setAttr_self (item : Item) (k : String) (v : AttributeValue) :
    getAttr (setAttr item k v) k = some v := by
  induction item with
  | nil => simp [setAttr, getAttr]
  | cons hd tl ih =>
    obtain ⟨k', v'⟩ := hd
    by_cases h : k' = k <;> simp [setAttr, getAttr, h, ih]

theorem getAttr_setAttr_ne (item : Item) (k k' : String) (v : AttributeValue)
    (h : k ≠ k') : getAttr (setAttr item k' v) k = getAttr item k := by
  have h' : k' ≠ k := Ne.symm h
  induction item with
  | nil => simp [setAttr, getAttr, h']
  | cons hd tl ih =>
    obtain ⟨k₀, v₀⟩ := hd
    by_cases h0 : k₀ = k'
    · subst h0
      simp [setAttr, getAttr, h']
    · simp only [setAttr, getAttr, if_neg h0]
      by_cases h1 : k₀ = k <;> simp [getAttr, h1, ih]

/-- Look up an expression attribute value (`:placeholder`) in the value map of
an UpdateItem request. -/
def lookupValue : List (String × AttributeValue) → String → Option AttributeValue
  | [], _ => none
  | (ph, v) :: rest, p => if ph = p then some v else lookupValue rest p

/-- Apply a DynamoDB `SET a = :p, b = :q, ...` update expression. The request
is validated as a whole: if any referenced placeholder is absent from the
expression attribute values, the whole update is rejected (`none`) and the
item is left untouched by the caller. -/
def applyUpdateExpr (item : Item) :
    List (String × String) → List (String × AttributeValue) → Option Item
  | [], _ => some item
  | (attr, ph) :: rest, values =>
    match lookupValue values ph with
    | some v => applyUpdateExpr (setAttr item attr v) rest values
    | none => none

/-! ### Lease lock (WatchChannelStoreContext, watchchannel_store.go)

The lease record for one channel is a single item of the
`WatchChannelLocks` table; the `channel_id` key attribute selects the item,
so operations below act directly on that item. -/

/-- Lease duration used by `AcquireChangesToken`: 30 seconds in
milliseconds. -/
def LEASE_DURATION_MS : Int := 30000

/-- Does `lock_expires < :now` hold on the item, with DynamoDB comparison
semantics (a missing or non-numeric attribute compares false)? -/
def lockExpiresBefore (item : Item) (now : Int) : Bool :=
  match getAttr item "lock_expires" with
  | some (AttributeValue.N v) => decide (v < now)
  | _ => false

/-- `AcquireChangesToken`'s condition expression
`locked = :false OR lock_expires < :now`. -/
def acquireCondition (item : Item) (now : Int) : Bool :=
  decide (getAttr item "locked" = some (AttributeValue.BOOL false))
    || lockExpiresBefore item now

/-- The item after `AcquireChangesToken`'s update expression
`SET locked = :true, lock_expires = :leaseUntil, updated_at = :updatedAt`. -/
def acquireUpdatedItem (item : Item) (now : Int) (updatedAt : String) : Item :=
  setAttr
    (setAttr (setAttr item "locked" (AttributeValue.BOOL true))
      "lock_expires" (AttributeValue.N (now + LEASE_DURATION_MS)))
    "updated_at" (AttributeValue.S updatedAt)

/-- `AcquireChangesToken` (watchchannel_store.go:175). Performs the
conditional update above and, on success, returns the stored
`changes_start_token` from the item (the `ALL_NEW` return value); a
conditional-check failure is surfaced as the "lock is currently held" error
with the item unchanged. The returned `Item` is the state of the lease record
after the call. -/
def acquireChangesToken (item : Item) (now : Int) (updatedAt : String) :
    Item × Except String String :=
  if acquireCondition item now then
    match getAttr (acquireUpdatedItem item now updatedAt) "changes_start_token" with
    | some (AttributeValue.S tok) =>
      (acquireUpdatedItem item now updatedAt, Except.ok tok)
    | _ =>
      (acquireUpdatedItem item now updatedAt,
        Except.error "changes_start_token attribute not found or invalid")
  else
    (item, Except.error "lock is currently held")

/-- `ReleaseChangesToken` (watchchannel_store.go:235). The update expression
always reads `SET locked = :false, changes_start_token = :new_start_token`,
but `:new_start_token` is only added to the expression attribute values when
the supplied token is non-empty; an unbound placeholder makes the store
reject the whole update. -/
def releaseChangesToken (item : Item) (newStartToken : String) :
    Item × Except String Unit :=
  let values :=
    if newStartToken ≠ "" then
      [(":false", AttributeValue.BOOL false),
       (":new_start_token", AttributeValue.S newStartToken)]
    else
      [(":false", AttributeValue.BOOL false)]
  match applyUpdateExpr item
      [("locked", ":false"), ("changes_start_token", ":new_start_token")] values with
  | some item2 => (item2, Except.ok ())
  | none =>
    (item,
      Except.error "expression attribute value :new_start_token is not defined")

/-! ### Change Ingestion Engine (GoogleDriveContext.QueryChanges, drive.go)

The external change feed is modelled as the finite sequence of page
responses the provider would deliver to the successive `Changes.List` calls
of one `QueryChanges` invocation; a request past the end of that script is
reported as an error page. `uuid.New()` is modelled by an explicit generator
indexed by how many documents have been built so far. RFC3339 timestamps are
modelled as already parsed (`some t`) or unparsable (`none`), matching the
two outcomes of `time.Parse`. -/

/-- The fields of a `drive.File` that `QueryChanges` reads. -/
structure DriveFile where
  id : String
  name : String
  parents : List String
  size : Int
  createdTime : Option Nat
  modifiedTime : Option Nat
  trashed : Bool
deriving DecidableEq, Repr

/-- One entry of a changes page. -/
structure DriveChange where
  changeType : String
  removed : Bool
  file : DriveFile
deriving DecidableEq, Repr

/-- One page of the change feed (`drive.ChangeList`). -/
structure ChangesPage where
  changes : List DriveChange
  nextPageToken : String
  newStartPageToken : String
deriving DecidableEq, Repr

/-- `stypes.Document` — the metadata record built for a discovered file. -/
structure Document where
  id : String
  googleID : String
  googleFolderID : String
  name : String
  size : Int
  createdTime : Nat
  modifiedTime : Nat
deriving DecidableEq, Repr

/-- `buildDocument` (drive.go:219): fails when either timestamp does not
parse; otherwise builds the document with a freshly generated id. The
`parents.headD` rendering of `file.Parents[0]` is safe because the caller
only builds documents whose parents contain the watched folder. -/
def buildDocument (uuid : String) (file : DriveFile) : Option Document :=
  match file.createdTime, file.modifiedTime with
  | some c, some m =>
    some { id := uuid, googleID := file.id, googleFolderID := file.parents.headD "",
           name := file.name, size := file.size, createdTime := c, modifiedTime := m }
  | _, _ => none

/-- The accumulator of the `QueryChanges` scan: ids seen within this call,
documents emitted so far, and how many uuids have been consumed. -/
structure ScanState where
  seen : List String
  documents : List Document
  uuidCount : Nat
deriving Repr

/-- The per-page entry loop of `QueryChanges` (drive.go:142): skip drive
changes, removals and trashed files; skip entries outside the watched
folder; skip ids already seen in this call; otherwise mark the id as seen
and append the built document. -/
def processPage (folderID : String) (genID : Nat → String) :
    List DriveChange → ScanState → ScanState
  | [], s => s
  | c :: rest, s =>
    if c.changeType = "drive" ∨ c.removed = true ∨ c.file.trashed = true then
      processPage folderID genID rest s
    else if folderID ∉ c.file.parents then
      processPage folderID genID rest s
    else if c.file.id ∈ s.seen then
      processPage folderID genID rest s
    else
      let s1 : ScanState := { s with seen := c.file.id :: s.seen }
      match buildDocument (genID s.uuidCount) c.file with
      | none => processPage folderID genID rest s1
      | some d =>
        processPage folderID genID rest
          { s1 with documents := s1.documents ++ [d], uuidCount := s1.uuidCount + 1 }

/-- The paging loop of `QueryChanges` (drive.go:121): while the page token is
non-empty, fetch the next scripted page (propagating a feed error), process
its entries, and either continue with `nextPageToken` or finish with the
page's `newStartPageToken`. -/
def queryChangesLoop (folderID : String) (genID : Nat → String) :
    List (Except String ChangesPage) → String → ScanState →
    Except String (List Document × String)
  | [], pageToken, s =>
    if pageToken = "" then Except.ok (s.documents, pageToken)
    else Except.error "change feed exhausted"
  | Except.error e :: _, pageToken, s =>
    if pageToken = "" then Except.ok (s.documents, pageToken)
    else Except.error e
  | Except.ok page :: rest, pageToken, s =>
    if pageToken = "" then Except.ok (s.documents, pageToken)
    else if page.nextPageToken = "" then
      Except.ok ((processPage folderID genID page.changes s).documents,
        page.newStartPageToken)
    else
      queryChangesLoop folderID genID rest page.nextPageToken
        (processPage folderID genID page.changes s)

/-- `types.DocumentChanges` — the result of one `QueryChanges` call. -/
structure DocumentChanges where
  documents : List Document
  nextStartToken : String
deriving DecidableEq, Repr

/-- `QueryChanges` (drive.go:110). -/
def queryChanges (feed : List (Except String ChangesPage)) (genID : Nat → String)
    (folderID startToken : String) : Except String DocumentChanges :=
  match queryChangesLoop folderID genID feed startToken ⟨[], [], 0⟩ with
  | Except.ok (docs, tok) => Except.ok { documents := docs, nextStartToken := tok }
  | Except.error e => Except.error e

/-- A change entry survives the filters of `QueryChanges`: it is not a
drive-level change, not a removal, not trashed, and its parents contain the
watched folder. -/
def Qualifies (folderID : String) (c : DriveChange) : Prop :=
  c.changeType ≠ "drive" ∧ c.removed = false ∧ c.file.trashed = false ∧
    folderID ∈ c.file.parents

/-! ### Document table (DocumentStoreContext, document_store.go)

The `Documents` table is modelled as the list of its `Document` items, keyed
by the internally generated `id`. `GetDocumentByGoogleID` is modelled as the
index lookup by `google_id` that its name and index name describe (the Go
code directs the query at the watch-channel table's `GoogleFileIDIndex`,
which holds no `google_id` attribute at all; the model reads the documents
collection instead, the reading most favourable to the idempotency claim). -/

/-- `GetDocumentByGoogleID` (document_store.go:258): query by external file
id, `ErrDocumentNotFound` when no item matches. -/
def getDocumentByGoogleID (table : List Document) (googleID : String) :
    Except String Document :=
  match table.find? (fun d => d.googleID == googleID) with
  | some d => Except.ok d
  | none => Except.error "document not found"

/-- `InsertDocument` (document_store.go:297): an unconditional `PutItem`
keyed by the internally generated `id` — no condition expression guards
against an existing `google_id`. -/
def insertDocument (table : List Document) (d : Document) : List Document :=
  table.filter (fun x => x.id != d.id) ++ [d]

/-- The check-then-insert sequence of the ingestion handler (the spec's
`recordIfNew`): look the external id up, skip when found, otherwise insert
unconditionally. -/
def recordIfNew (table : List Document) (d : Document) : List Document × Bool :=
  match getDocumentByGoogleID table d.googleID with
  | Except.ok _ => (table, false)
  | Except.error _ => (insertDocument table d, true)

/-- Two `recordIfNew` calls racing on the same store, in the interleaving
where both index reads happen before either insert; each call then acts on
its own read result exactly as the sequential code does. -/
def recordIfNewRaced (table : List Document) (d1 d2 : Document) :
    List Document × Bool × Bool :=
  let r1 := getDocumentByGoogleID table d1.googleID
  let r2 := getDocumentByGoogleID table d2.googleID
  let step1 : List Document × Bool :=
    match r1 with
    | Except.ok _ => (table, false)
    | Except.error _ => (insertDocument table d1, true)
  let step2 : List Document × Bool :=
    match r2 with
    | Except.ok _ => (step1.1, false)
    | Except.error _ => (insertDocument step1.1 d2, true)
  (step2.1, step1.2, step2.2)

/-! ### SQS ingestion handler (the change-ingestion lambda's `process`)

One SQS record's worth of the handler: acquire the lease, page the feed,
release with the paging loop's cursor (a release failure is logged and
otherwise ignored), then for each emitted document run the check-then-insert
idempotency step and start one workflow execution. -/

/-- The step-function input record built by `util.BuildStepInput`.
Modelled from the spec: the definition is not in the sources (only its
callers are); §6 gives `inputRecord = \x7bnotificationID, documentID,
stage: "new"\x7d`, matching the call sites' arguments. -/
structure DocumentStep where
  notificationID : String
  documentID : String
  stage : String
deriving DecidableEq, Repr

/-- Modelled from the spec: the `DOCUMENT_STAGE_NEW` constant is referenced
by the handler but missing from the sources; the spec's workflow input uses
`stage: "new"`. -/
def DOCUMENT_STAGE_NEW : String := "new"

/-- `util.BuildStepInput` as used by the handler: package the ids and stage
for the workflow execution service. -/
def buildStepInput (notificationID documentID stage : String) : DocumentStep :=
  { notificationID := notificationID, documentID := documentID, stage := stage }

/-- The per-document loop of the handler: skip documents whose external id is
already recorded, otherwise insert the metadata and start one execution. -/
def processDocuments (notificationID : String) :
    List Document → List Document → List DocumentStep →
    List Document × List DocumentStep
  | [], table, execs => (table, execs)
  | d :: rest, table, execs =>
    match getDocumentByGoogleID table d.googleID with
    | Except.ok _ => processDocuments notificationID rest table execs
    | Except.error _ =>
      processDocuments notificationID rest (insertDocument table d)
        (execs ++ [buildStepInput notificationID d.id DOCUMENT_STAGE_NEW])

/-- The state after one handled SQS record, plus the handler's outcome. The
`lease` item stands for the lock-table row keyed by the message's channel
id; `emitted` is the deduplicated document-event list produced by the paging
loop; `nextCursor` is its returned resume cursor. -/
structure IngestOutcome where
  lease : Item
  docTable : List Document
  executions : List DocumentStep
  emitted : List Document
  nextCursor : String
  result : Except String Unit
deriving Repr

/-- The ingestion handler for one record: acquire the changes lock; on
failure return the error. Page the feed from the acquired cursor; on a feed
error return it without releasing, leaving the lease held. Otherwise release
with the loop's cursor (errors logged, not propagated), return early when no
documents were found, and otherwise record and dispatch each document. -/
def ingest (lease : Item) (docTable : List Document)
    (feed : List (Except String ChangesPage)) (genID : Nat → String)
    (folderID notificationID : String) (now : Int) (updatedAt : String) :
    IngestOutcome :=
  match acquireChangesToken lease now updatedAt with
  | (lease1, Except.error e) =>
    { lease := lease1, docTable := docTable, executions := [], emitted := [],
      nextCursor := "", result := Except.error e }
  | (lease1, Except.ok startToken) =>
    match queryChanges feed genID folderID startToken with
    | Except.error e =>
      { lease := lease1, docTable := docTable, executions := [], emitted := [],
        nextCursor := "", result := Except.error e }
    | Except.ok changes =>
      let lease2 := (releaseChangesToken lease1 changes.nextStartToken).1
      if changes.documents.length = 0 then
        { lease := lease2, docTable := docTable, executions := [], emitted := [],
          nextCursor := changes.nextStartToken, result := Except.ok () }
      else
        let stepped := processDocuments notificationID changes.documents docTable []
        { lease := lease2, docTable := stepped.1, executions := stepped.2,
          emitted := changes.documents, nextCursor := changes.nextStartToken,
          result := Except.ok () }

/-! ### Notification relay (the Google Drive webhook lambda)

The watch-channel registry is modelled as the list of its records; the
relevant request headers (`X-Goog-Resource-State`, `X-Goog-Channel-ID`,
`X-Goog-Resource-ID`) are the only inputs the relay reads. A sent SQS
message is recorded in the returned list; the lambda itself returns a nil Go
error on every path modelled here. -/

/-- The `stypes.WatchChannel` fields the relay reads or forwards (the
timestamps `created_at` and `updated_at` are never consulted by it). -/
structure WatchChannel where
  folderID : String
  expiresAt : Int
  channelID : String
  resourceID : String
  archiveFolderID : String
  destinationFolderID : String
  webhookUrl : String
deriving DecidableEq, Repr

/-- `GetWatchChannelByID` (watchchannel_store.go:107): query the
`ChannelIDIndex`, failing when no record matches. -/
def getWatchChannelByID (registry : List WatchChannel) (channelID : String) :
    Except String WatchChannel :=
  match registry.find? (fun wc => wc.channelID == channelID) with
  | some wc => Except.ok wc
  | none => Except.error "watch channel not found"

/-- The three inbound headers the webhook reads. -/
structure NotificationHeaders where
  resourceState : String
  channelID : String
  resourceID : String
deriving DecidableEq, Repr

/-- `queryWatchChannelForRequest`: reject non-`add` resource states, unknown
channels and mismatched resource ids, all with the same error. -/
def queryWatchChannelForRequest (registry : List WatchChannel)
    (req : NotificationHeaders) : Except String WatchChannel :=
  if req.resourceState ≠ "add" then Except.error "invalid file notification"
  else
    match getWatchChannelByID registry req.channelID with
    | Except.error _ => Except.error "invalid file notification"
    | Except.ok wc =>
      if req.resourceID ≠ wc.resourceID then Except.error "invalid file notification"
      else Except.ok wc

/-- An API gateway response as built by `util.BuildGatewayResponse`. -/
structure GatewayResponse where
  body : String
  statusCode : Nat
deriving DecidableEq, Repr

/-- `types.ChannelNotification` — the queued message.
The struct's definition is not among the sources; its three fields are those
assigned at the send site and match the spec's minimal message. -/
structure ChannelNotification where
  notificationID : String
  channelID : String
  folderID : String
deriving DecidableEq, Repr

/-- The webhook's `process`: validation failures are answered with the error
text and HTTP 500; a validated addition signal is answered with
"Processing new file"/200 after enqueueing one minimal message. Both paths
return a nil Go error to the lambda runtime. -/
def webhookProcess (registry : List WatchChannel) (req : NotificationHeaders)
    (notificationID : String) : GatewayResponse × List ChannelNotification :=
  match queryWatchChannelForRequest registry req with
  | Except.error e => ({ body := e, statusCode := 500 }, [])
  | Except.ok wc =>
    ({ body := "Processing new file", statusCode := 200 },
     [{ notificationID := notificationID, channelID := wc.channelID,
        folderID := wc.folderID }])

/-! ### Processing-stage ledger (document_store.go)

The `DocumentProcessingStage` table is modelled as the list of its records,
keyed by the pair `(id, stage)`. Wall-clock reads (`time.Now()`) are passed
in explicitly. -/

def DOCUMENT_STATUS_INPROGRESS : String := "in-progress"

def DOCUMENT_STATUS_COMPLETE : String := "complete"

/-- `stypes.DocumentProcessingStage`, with the fields the store reads and
writes; absent timestamps are the zero value 0, mirroring Go's zero
`time.Time`. -/
structure DocumentProcessingStage where
  id : String
  stage : String
  stageStatus : String
  startedAt : Nat
  completedAt : Nat
  originalFileName : String
  stageFileName : String
  s3Key : String
deriving DecidableEq, Repr, Inhabited

/-- `PutItem` on the stage table: replace the record with the same
`(id, stage)` key, or add it. -/
def putStage (table : List DocumentProcessingStage)
    (s : DocumentProcessingStage) : List DocumentProcessingStage :=
  table.filter (fun x => x.id != s.id || x.stage != s.stage) ++ [s]

/-- `GetDocumentStage` (document_store.go:323): a missing item unmarshals to
the zero record, with no error. -/
def getDocumentStage (table : List DocumentProcessingStage)
    (id stage : String) : DocumentProcessingStage :=
  (table.find? (fun x => x.id == id && x.stage == stage)).getD default

/-- `insertDocumentStage` (document_store.go:368): stamp `StartedAt` with the
current time, then put the record; the caller observes the stamped record. -/
def insertDocumentStage (table : List DocumentProcessingStage)
    (s : DocumentProcessingStage) (now : Nat) :
    List DocumentProcessingStage × DocumentProcessingStage :=
  let s2 := { s with startedAt := now }
  (putStage table s2, s2)

/-- `StartDocumentStage` (document_store.go:396): build the in-progress
record and insert it; both `time.Now()` reads of the call are the one
`now`. -/
def startDocumentStage (table : List DocumentProcessingStage)
    (id stage originalFileName : String) (now : Nat) :
    List DocumentProcessingStage × DocumentProcessingStage :=
  insertDocumentStage table
    { id := id, stage := stage, stageStatus := DOCUMENT_STATUS_INPROGRESS,
      startedAt := now, completedAt := 0, originalFileName := originalFileName,
      stageFileName := "", s3Key := "" } now

/-- `CompleteDocumentStage` (document_store.go:420): stamp `CompletedAt`, set
the status to complete, and persist every non-key field of the (possibly
caller-mutated) record via the generated update expression — with the key
equal to the record's own `(id, stage)`, this replaces the stored record. -/
def completeDocumentStage (table : List DocumentProcessingStage)
    (s : DocumentProcessingStage) (now : Nat) :
    List DocumentProcessingStage × DocumentProcessingStage :=
  let s2 := { s with completedAt := now, stageStatus := DOCUMENT_STATUS_COMPLETE }
  (putStage table s2, s2)

/-! ### Helper lemmas about the lease operations -/

theorem acquireUpdatedItem_token (item : Item) (now : Int) (u : String) :
    getAttr (acquireUpdatedItem item now u) "changes_start_token" =
      getAttr item "changes_start_token" := by
  unfold acquireUpdatedItem
  rw [getAttr_setAttr_ne _ _ _ _ (by decide), getAttr_setAttr_ne _ _ _ _ (by decide),
    getAttr_setAttr_ne _ _ _ _ (by decide)]

theorem acquireUpdatedItem_locked (item : Item) (now : Int) (u : String) :
    getAttr (acquireUpdatedItem item now u) "locked" =
      some (AttributeValue.BOOL true) := by
  unfold acquireUpdatedItem
  rw [getAttr_setAttr_ne _ _ _ _ (by decide), getAttr_setAttr_ne _ _ _ _ (by decide),
    getAttr_setAttr_self]

theorem acquireUpdatedItem_expires (item : Item) (now : Int) (u : String) :
    getAttr (acquireUpdatedItem item now u) "lock_expires" =
      some (AttributeValue.N (now + LEASE_DURATION_MS)) := by
  unfold acquireUpdatedItem
  rw [getAttr_setAttr_ne _ _ _ _ (by decide), getAttr_setAttr_self]

/-- While the lease is held (`locked = true`) and not yet expired
(`now ≤ lock_expires`), the conditional write fails and the item is left
unchanged. -/
theorem acquire_fails_while_locked (item : Item) (now exp : Int) (u : String)
    (h1 : getAttr item "locked" = some (AttributeValue.BOOL true))
    (h2 : getAttr item "lock_expires" = some (AttributeValue.N exp))
    (h3 : now ≤ exp) :
    acquireChangesToken item now u = (item, Except.error "lock is currently held") := by
  have hcond : acquireCondition item now = false := by
    unfold acquireCondition lockExpiresBefore
    rw [h1, h2]
    have : ¬ (exp < now) := by omega
    simp [this]
  unfold acquireChangesToken
  rw [hcond]
  simp

/-- A successful acquire leaves the record with `locked = true` and
`lock_expires = now + LEASE_DURATION_MS`, and does not touch the stored
cursor. -/
theorem acquire_ok_state (item item1 : Item) (now : Int) (u tok : String)
    (h : acquireChangesToken item now u = (item1, Except.ok tok)) :
    getAttr item1 "locked" = some (AttributeValue.BOOL true) ∧
    getAttr item1 "lock_expires" = some (AttributeValue.N (now + LEASE_DURATION_MS)) ∧
    getAttr item1 "changes_start_token" = getAttr item "changes_start_token" := by
  unfold acquireChangesToken at h
  split at h
  · split at h
    · obtain ⟨h1, -⟩ := Prod.mk.injEq .. ▸ h
      subst h1
      exact ⟨acquireUpdatedItem_locked .., acquireUpdatedItem_expires ..,
        acquireUpdatedItem_token ..⟩
    · obtain ⟨-, h2⟩ := Prod.mk.injEq .. ▸ h
      exact absurd h2 (by simp)
  · obtain ⟨-, h2⟩ := Prod.mk.injEq .. ▸ h
    exact absurd h2 (by simp)

/-- The lease record's stored cursor is never modified by an acquire call,
whatever its outcome. -/
theorem acquire_preserves_token (item : Item) (now : Int) (u : String) :
    getAttr (acquireChangesToken item now u).1 "changes_start_token" =
      getAttr item "changes_start_token" := by
  unfold acquireChangesToken
  split
  · split <;> simp [acquireUpdatedItem_token]
  · rfl

/-! ### Helper lemmas about the paging scan -/

theorem buildDocument_googleID (u : String) (f : DriveFile) (d : Document)
    (h : buildDocument u f = some d) : d.googleID = f.id := by
  unfold buildDocument at h
  split at h
  · cases h
    rfl
  · cases h

/-- Every document added by the per-page scan stems from a change entry of
that page that passed all the filters. -/
theorem processPage_sources (folderID : String) (genID : Nat → String)
    (changes : List DriveChange) (s : ScanState) (d : Document)
    (hd : d ∈ (processPage folderID genID changes s).documents) :
    d ∈ s.documents ∨
      ∃ c ∈ changes, Qualifies folderID c ∧ d.googleID = c.file.id := by
  induction changes generalizing s with
  | nil =>
    exact Or.inl (by simpa [processPage] using hd)
  | cons c rest ih =>
    rw [processPage] at hd
    split at hd
    · rcases ih _ hd with h | ⟨c', hc', hq, hgid⟩
      · exact Or.inl h
      · exact Or.inr ⟨c', List.mem_cons_of_mem _ hc', hq, hgid⟩
    · split at hd
      · rcases ih _ hd with h | ⟨c', hc', hq, hgid⟩
        · exact Or.inl h
        · exact Or.inr ⟨c', List.mem_cons_of_mem _ hc', hq, hgid⟩
      · split at hd
        · rcases ih _ hd with h | ⟨c', hc', hq, hgid⟩
          · exact Or.inl h
          · exact Or.inr ⟨c', List.mem_cons_of_mem _ hc', hq, hgid⟩
        · rename_i hskip hpar hseen
          push_neg at hskip
          obtain ⟨hct, hrm, htr⟩ := hskip
          have hqual : Qualifies folderID c :=
            ⟨hct, Bool.eq_false_iff.mpr hrm, Bool.eq_false_iff.mpr htr,
              not_not.mp hpar⟩
          split at hd
          · rcases ih _ hd with h | ⟨c', hc', hq, hgid⟩
            · exact Or.inl h
            · exact Or.inr ⟨c', List.mem_cons_of_mem _ hc', hq, hgid⟩
          · rename_i d' hbuild
            rcases ih _ hd with h | ⟨c', hc', hq, hgid⟩
            · rcases List.mem_append.mp h with h | h
              · exact Or.inl h
              · have hd' : d = d' := by simpa using h
                subst hd'
                exact Or.inr ⟨c, List.mem_cons_self .., hqual,
                  buildDocument_googleID _ _ _ hbuild⟩
            · exact Or.inr ⟨c', List.mem_cons_of_mem _ hc', hq, hgid⟩

/-- The documents accumulated by the scan carry pairwise-distinct external
ids, all of them recorded in `seen`. -/
def DocsOk (s : ScanState) : Prop :=
  (∀ d ∈ s.documents, d.googleID ∈ s.seen) ∧
    s.documents.Pairwise (fun a b => a.googleID ≠ b.googleID)

theorem processPage_docsOk (folderID : String) (genID : Nat → String)
    (changes : List DriveChange) (s : ScanState) (hs : DocsOk s) :
    DocsOk (processPage folderID genID changes s) := by
  induction changes generalizing s with
  | nil => simpa [processPage] using hs
  | cons c rest ih =>
    rw [processPage]
    split
    · exact ih _ hs
    · split
      · exact ih _ hs
      · split
        · exact ih _ hs
        · rename_i hskip hpar hseen
          split
          · refine ih _ ⟨?_, hs.2⟩
            intro d hd
            exact List.mem_cons_of_mem _ (hs.1 d hd)
          · rename_i d' hbuild
            refine ih _ ⟨?_, ?_⟩
            · intro d hd
              rcases List.mem_append.mp hd with h | h
              · exact List.mem_cons_of_mem _ (hs.1 d h)
              · have hd' : d = d' := by simpa using h
                subst hd'
                rw [buildDocument_googleID _ _ _ hbuild]
                exact List.mem_cons_self ..
            · rw [List.pairwise_append]
              refine ⟨hs.2, List.pairwise_singleton .., ?_⟩
              intro a ha b hb
              have hb' : b = d' := by simpa using hb
              subst hb'
              rw [buildDocument_googleID _ _ _ hbuild]
              intro hcontra
              exact hseen (hcontra ▸ hs.1 a ha)

/-- Sources of the documents returned by the whole paging loop. -/
theorem queryChangesLoop_sources (folderID : String) (genID : Nat → String)
    (pages : List (Except String ChangesPage)) (pageToken : String)
    (s : ScanState) (docs : List Document) (tok : String)
    (h : queryChangesLoop folderID genID pages pageToken s =
      Except.ok (docs, tok)) :
    ∀ d ∈ docs, d ∈ s.documents ∨
      ∃ page, Except.ok page ∈ pages ∧
        ∃ c ∈ page.changes, Qualifies folderID c ∧ d.googleID = c.file.id := by
  induction pages generalizing pageToken s with
  | nil =>
    rw [queryChangesLoop] at h
    split at h
    · cases h
      exact fun d hd => Or.inl hd
    · cases h
  | cons resp rest ih =>
    cases resp with
    | error e =>
      rw [queryChangesLoop] at h
      split at h
      · cases h
        exact fun d hd => Or.inl hd
      · cases h
    | ok page =>
      rw [queryChangesLoop] at h
      split at h
      · cases h
        exact fun d hd => Or.inl hd
      · split at h
        · cases h
          intro d hd
          rcases processPage_sources folderID genID page.changes s d hd with
            hmem | ⟨c, hc, hq, hgid⟩
          · exact Or.inl hmem
          · exact Or.inr ⟨page, List.mem_cons_self .., c, hc, hq, hgid⟩
        · intro d hd
          rcases ih _ _ h d hd with hmem | ⟨page', hp', c, hc, hq, hgid⟩
          · rcases processPage_sources folderID genID page.changes s d hmem with
              hmem2 | ⟨c, hc, hq, hgid⟩
            · exact Or.inl hmem2
            · exact Or.inr ⟨page, List.mem_cons_self .., c, hc, hq, hgid⟩
          · exact Or.inr ⟨page', List.mem_cons_of_mem _ hp', c, hc, hq, hgid⟩

/-- The paging loop never emits two documents with the same external id. -/
theorem queryChangesLoop_docsOk (folderID : String) (genID : Nat → String)
    (pages : List (Except String ChangesPage)) (pageToken : String)
    (s : ScanState) (docs : List Document) (tok : String)
    (h : queryChangesLoop folderID genID pages pageToken s =
      Except.ok (docs, tok))
    (hs : DocsOk s) :
    docs.Pairwise (fun a b => a.googleID ≠ b.googleID) := by
  induction pages generalizing pageToken s with
  | nil =>
    rw [queryChangesLoop] at h
    split at h
    · cases h
      exact hs.2
    · cases h
  | cons resp rest ih =>
    cases resp with
    | error e =>
      rw [queryChangesLoop] at h
      split at h
      · cases h
        exact hs.2
      · cases h
    | ok page =>
      rw [queryChangesLoop] at h
      split at h
      · cases h
        exact hs.2
      · split at h
        · cases h
          exact (processPage_docsOk folderID genID page.changes s hs).2
        · exact ih _ _ h (processPage_docsOk folderID genID page.changes s hs)

/-! ### Helper lemma about the stage table -/

theorem getStage_putStage (table : List DocumentProcessingStage)
    (s : DocumentProcessingStage) :
    getDocumentStage (putStage table s) s.id s.stage = s := by
  unfold getDocumentStage putStage
  rw [List.find?_append]
  have h1 : (table.filter (fun x => x.id != s.id || x.stage != s.stage)).find?
      (fun x => x.id == s.id && x.stage == s.stage) = none := by
    rw [List.find?_eq_none]
    intro x hx
    have hp := (List.mem_filter.mp hx).2
    simp only [bne_iff_ne, ne_eq, Bool.or_eq_true] at hp
    simp only [Bool.and_eq_true, beq_iff_eq, not_and]
    intro h2 h3
    rcases hp with hp | hp <;> exact hp (by simp [h2, h3])
  rw [h1]
  simp [List.find?]

/-! ### Claim theorems -/

/-- C1: mutual exclusion of the lease lock. While the lease record has
`locked = true` and `now < lockExpiresAt`, a second acquire fails with the
lock-held error and leaves the lease record unchanged; hence when an acquire
succeeds, any acquire issued before the lease expires (and before any
release) fails rather than succeeding as well. -/
theorem c1_lease_mutual_exclusion :
    (∀ (item : Item) (now exp : Int) (u : String),
      getAttr item "locked" = some (AttributeValue.BOOL true) →
      getAttr item "lock_expires" = some (AttributeValue.N exp) →
      now < exp →
      acquireChangesToken item now u = (item, Except.error "lock is currently held")) ∧
    (∀ (item item1 : Item) (now1 now2 : Int) (u1 u2 tok : String),
      acquireChangesToken item now1 u1 = (item1, Except.ok tok) →
      now2 < now1 + LEASE_DURATION_MS →
      (acquireChangesToken item1 now2 u2).2 = Except.error "lock is currently held") := by
  constructor
  · intro item now exp u h1 h2 h3
    exact acquire_fails_while_locked item now exp u h1 h2 (le_of_lt h3)
  · intro item item1 now1 now2 u1 u2 tok h hlt
    obtain ⟨hl, he, -⟩ := acquire_ok_state item item1 now1 u1 tok h
    rw [acquire_fails_while_locked item1 now2 (now1 + LEASE_DURATION_MS) u2 hl he
      (le_of_lt hlt)]

/-- Witness for C1 at a concrete held lease: `locked = true`,
`lock_expires = 100`, an acquire at `now = 50` fails and leaves the record
unchanged. -/
theorem c1_lease_mutual_exclusion_witness :
    acquireChangesToken
      [("channel_id", AttributeValue.S "ch1"), ("locked", AttributeValue.BOOL true),
       ("lock_expires", AttributeValue.N 100),
       ("changes_start_token", AttributeValue.S "C0")] 50 "t" =
      ([("channel_id", AttributeValue.S "ch1"), ("locked", AttributeValue.BOOL true),
        ("lock_expires", AttributeValue.N 100),
        ("changes_start_token", AttributeValue.S "C0")],
       Except.error "lock is currently held") :=
  c1_lease_mutual_exclusion.1 _ 50 100 "t" (by decide) (by decide) (by decide)

/-- C4 counterexample: at `now = lockExpiresAt` (here both 100) with
`locked = true`, the conditional write's strict comparison
`lock_expires < :now` is false, so acquire fails even though
`now >= lockExpiresAt`; the claim's reclaim condition `now >= lockExpiresAt`
does not hold of the code at the boundary. -/
theorem c4_lease_reclaim_boundary_cex :
    acquireChangesToken
      [("channel_id", AttributeValue.S "ch1"), ("locked", AttributeValue.BOOL true),
       ("lock_expires", AttributeValue.N 100),
       ("changes_start_token", AttributeValue.S "C0")] 100 "t" =
      ([("channel_id", AttributeValue.S "ch1"), ("locked", AttributeValue.BOOL true),
        ("lock_expires", AttributeValue.N 100),
        ("changes_start_token", AttributeValue.S "C0")],
       Except.error "lock is currently held") := by
  rfl

/-- C4 amended: if the lease record has `lockExpiresAt` strictly in the past
(`lockExpiresAt < now`), acquire succeeds and re-locks the lease regardless
of the stored `locked` value. -/
theorem c4_lease_self_recovery_amended (item : Item) (now exp : Int) (u tok : String)
    (h2 : getAttr item "lock_expires" = some (AttributeValue.N exp))
    (h3 : exp < now)
    (h4 : getAttr item "changes_start_token" = some (AttributeValue.S tok)) :
    acquireChangesToken item now u = (acquireUpdatedItem item now u, Except.ok tok) ∧
    getAttr (acquireChangesToken item now u).1 "locked" =
      some (AttributeValue.BOOL true) := by
  have hcond : acquireCondition item now = true := by
    unfold acquireCondition lockExpiresBefore
    rw [h2]
    simp [h3]
  have htok : getAttr (acquireUpdatedItem item now u) "changes_start_token" =
      some (AttributeValue.S tok) := by
    rw [acquireUpdatedItem_token, h4]
  have hmain : acquireChangesToken item now u =
      (acquireUpdatedItem item now u, Except.ok tok) := by
    simp [acquireChangesToken, hcond, htok]
  exact ⟨hmain, by rw [hmain]; exact acquireUpdatedItem_locked item now u⟩

/-- Witness for the amended C4: an expired lease (`lock_expires = 100`) with
`locked = true` is reclaimed by an acquire at `now = 101`. -/
theorem c4_lease_self_recovery_amended_witness :
    acquireChangesToken
      [("channel_id", AttributeValue.S "ch1"), ("locked", AttributeValue.BOOL true),
       ("lock_expires", AttributeValue.N 100),
       ("changes_start_token", AttributeValue.S "C0")] 101 "t" =
      (acquireUpdatedItem
        [("channel_id", AttributeValue.S "ch1"), ("locked", AttributeValue.BOOL true),
         ("lock_expires", AttributeValue.N 100),
         ("changes_start_token", AttributeValue.S "C0")] 101 "t",
       Except.ok "C0") ∧
    getAttr
      (acquireChangesToken
        [("channel_id", AttributeValue.S "ch1"), ("locked", AttributeValue.BOOL true),
         ("lock_expires", AttributeValue.N 100),
         ("changes_start_token", AttributeValue.S "C0")] 101 "t").1 "locked" =
      some (AttributeValue.BOOL true) :=
  c4_lease_self_recovery_amended _ 101 100 "t" "C0" (by decide) (by decide) (by decide)

/-- C6: intra-call deduplication. A successful `QueryChanges` call never
emits two document events with the same external file id, and on a feed
listing the same id on two pages the call emits exactly the event built from
the first occurrence in feed-delivery order (here: the page-1 entry named
"first", not the page-2 entry named "second"). -/
theorem c6_intra_call_dedup :
    (∀ (feed : List (Except String ChangesPage)) (genID : Nat → String)
        (folderID startToken : String) (dc : DocumentChanges),
      queryChanges feed genID folderID startToken = Except.ok dc →
      dc.documents.Pairwise (fun a b => a.googleID ≠ b.googleID)) ∧
    queryChanges
        [Except.ok ⟨[⟨"file", false, ⟨"g1", "first", ["F1"], 1, some 1, some 2, false⟩⟩],
           "T2", ""⟩,
         Except.ok ⟨[⟨"file", false, ⟨"g1", "second", ["F1"], 1, some 1, some 2, false⟩⟩],
           "", "C1"⟩]
        (fun n => "u" ++ toString n) "F1" "C0" =
      Except.ok ⟨[⟨"u0", "g1", "F1", "first", 1, 1, 2⟩], "C1"⟩ := by
  constructor
  · intro feed genID folderID startToken dc h
    unfold queryChanges at h
    split at h
    · rename_i docs tok hloop
      cases h
      exact queryChangesLoop_docsOk folderID genID feed startToken _ docs tok hloop
        ⟨(fun d hd => nomatch hd), List.Pairwise.nil⟩
    · cases h
  · rfl

/-- Witness for C6 at a concrete feed: the single emitted event list is
pairwise-distinct in external ids. -/
theorem c6_intra_call_dedup_witness :
    List.Pairwise (fun a b => a.googleID ≠ b.googleID)
      ([⟨"u0", "g1", "F1", "first", 1, 1, 2⟩] : List Document) :=
  c6_intra_call_dedup.1
    [Except.ok ⟨[⟨"file", false, ⟨"g1", "first", ["F1"], 1, some 1, some 2, false⟩⟩],
       "T2", ""⟩,
     Except.ok ⟨[⟨"file", false, ⟨"g1", "second", ["F1"], 1, some 1, some 2, false⟩⟩],
       "", "C1"⟩]
    (fun n => "u" ++ toString n) "F1" "C0" ⟨[⟨"u0", "g1", "F1", "first", 1, 1, 2⟩], "C1"⟩
    (by rfl)

/-- C9: change filtering. Every document event emitted by a `QueryChanges`
call stems from a feed entry that is not a removal (nor drive-level, nor
trashed) and whose parents contain the watched folder; in particular a feed
page whose only entry is a removal yields an empty document list. -/
theorem c9_change_filtering :
    (∀ (feed : List (Except String ChangesPage)) (genID : Nat → String)
        (folderID startToken : String) (dc : DocumentChanges),
      queryChanges feed genID folderID startToken = Except.ok dc →
      ∀ d ∈ dc.documents, ∃ page, Except.ok page ∈ feed ∧
        ∃ c ∈ page.changes, Qualifies folderID c ∧ d.googleID = c.file.id) ∧
    queryChanges
        [Except.ok ⟨[⟨"file", true, ⟨"g1", "doc1", ["F1"], 1, some 1, some 2, false⟩⟩],
           "", "C1"⟩]
        (fun n => "u" ++ toString n) "F1" "C0" =
      Except.ok ⟨[], "C1"⟩ := by
  constructor
  · intro feed genID folderID startToken dc h
    unfold queryChanges at h
    split at h
    · rename_i docs tok hloop
      cases h
      intro d hd
      rcases queryChangesLoop_sources folderID genID feed startToken _ docs tok
          hloop d hd with hmem | hex
      · cases hmem
      · exact hex
    · cases h
  · rfl

/-- Witness for C9 at a concrete feed with one qualifying entry: the emitted
event's source entry exists in the feed. -/
theorem c9_change_filtering_witness :
    ∀ d ∈ ([⟨"u0", "g1", "F1", "doc1", 1, 1, 2⟩] : List Document),
      ∃ page, (Except.ok page : Except String ChangesPage) ∈
          ([Except.ok ⟨[⟨"file", false, ⟨"g1", "doc1", ["F1"], 1, some 1, some 2, false⟩⟩],
            "", "C1"⟩] : List (Except String ChangesPage)) ∧
        ∃ c ∈ page.changes, Qualifies "F1" c ∧ d.googleID = c.file.id := by
  exact c9_change_filtering.1
    [Except.ok ⟨[⟨"file", false, ⟨"g1", "doc1", ["F1"], 1, some 1, some 2, false⟩⟩],
       "", "C1"⟩]
    (fun n => "u" ++ toString n) "F1" "C0" ⟨[⟨"u0", "g1", "F1", "doc1", 1, 1, 2⟩], "C1"⟩
    (by rfl)

/-- C10: releasing with an empty cursor always fails. The update expression
unconditionally references `:new_start_token`, but the placeholder value is
only bound for a non-empty cursor, so the store rejects the request and the
lease record is left unchanged: `locked` is not cleared and the stored
cursor keeps its previous value. -/
theorem c10_release_empty_cursor_fails (item : Item) :
    releaseChangesToken item "" =
      (item,
        Except.error "expression attribute value :new_start_token is not defined") := by
  rfl

/-- C2 fails on the code: the idempotency step is a separate index read
followed by an unconditional put keyed by a fresh internal id, not an atomic
insert-if-absent keyed by the external id. In the interleaving where two
calls for external id "g1" both read before either writes, both calls
report `isNew = true` and two records with external id "g1" persist. -/
theorem c2_record_if_new_race :
    (recordIfNewRaced [] ⟨"u1", "g1", "F1", "doc1", 1, 1, 2⟩
        ⟨"u2", "g1", "F1", "doc1", 1, 1, 2⟩).2 = (true, true) ∧
    ((recordIfNewRaced [] ⟨"u1", "g1", "F1", "doc1", 1, 1, 2⟩
        ⟨"u2", "g1", "F1", "doc1", 1, 1, 2⟩).1.filter
          (fun x => x.googleID == "g1")).length = 2 ∧
    (recordIfNew [] ⟨"u1", "g1", "F1", "doc1", 1, 1, 2⟩).2 = true := by
  decide

/-- C3: cursor durability on failure. When the lease is acquired and the
change-feed paging then fails, the handler returns the feed error without
releasing: the lease record stays exactly as the acquire left it — locked,
with its stored cursor equal to the value it had before the call — and no
document is recorded or dispatched. -/
theorem c3_cursor_durability_on_failure (lease lease1 : Item)
    (docTable : List Document) (feed : List (Except String ChangesPage))
    (genID : Nat → String) (folderID notificationID tok : String)
    (now : Int) (u e : String)
    (hacq : acquireChangesToken lease now u = (lease1, Except.ok tok))
    (hq : queryChanges feed genID folderID tok = Except.error e) :
    ingest lease docTable feed genID folderID notificationID now u =
      { lease := lease1, docTable := docTable, executions := [], emitted := [],
        nextCursor := "", result := Except.error e } ∧
    getAttr lease1 "locked" = some (AttributeValue.BOOL true) ∧
    getAttr lease1 "changes_start_token" = getAttr lease "changes_start_token" := by
  obtain ⟨hl, -, ht⟩ := acquire_ok_state lease lease1 now u tok hacq
  refine ⟨?_, hl, ht⟩
  simp [ingest, hacq, hq]

/-- Witness for C3: a concrete unlocked lease with cursor "C0" is acquired
at `now = 100` and the single feed request fails; the handler reports the
failure, the lease stays locked, the cursor stays "C0". -/
theorem c3_cursor_durability_on_failure_witness :
    (ingest
        [("channel_id", AttributeValue.S "ch1"), ("locked", AttributeValue.BOOL false),
         ("lock_expires", AttributeValue.N 0),
         ("changes_start_token", AttributeValue.S "C0")]
        [] [Except.error "feed unavailable"] (fun n => "u" ++ toString n)
        "F1" "n1" 100 "t" =
      { lease := [("channel_id", AttributeValue.S "ch1"),
                  ("locked", AttributeValue.BOOL true),
                  ("lock_expires", AttributeValue.N 30100),
                  ("changes_start_token", AttributeValue.S "C0"),
                  ("updated_at", AttributeValue.S "t")],
        docTable := [], executions := [], emitted := [], nextCursor := "",
        result := Except.error "feed unavailable" }) ∧
    getAttr
      [("channel_id", AttributeValue.S "ch1"), ("locked", AttributeValue.BOOL true),
       ("lock_expires", AttributeValue.N 30100),
       ("changes_start_token", AttributeValue.S "C0"),
       ("updated_at", AttributeValue.S "t")] "locked" =
      some (AttributeValue.BOOL true) ∧
    getAttr
      [("channel_id", AttributeValue.S "ch1"), ("locked", AttributeValue.BOOL true),
       ("lock_expires", AttributeValue.N 30100),
       ("changes_start_token", AttributeValue.S "C0"),
       ("updated_at", AttributeValue.S "t")] "changes_start_token" =
      getAttr
        [("channel_id", AttributeValue.S "ch1"), ("locked", AttributeValue.BOOL false),
         ("lock_expires", AttributeValue.N 0),
         ("changes_start_token", AttributeValue.S "C0")] "changes_start_token" := by
  exact c3_cursor_durability_on_failure _ _ [] [Except.error "feed unavailable"]
    (fun n => "u" ++ toString n) "F1" "n1" "C0" 100 "t" "feed unavailable"
    (by rfl) (by rfl)

/-- C5: successful ingestion round-trip. Starting from the lease
(locked = false, cursor = "C0") and an empty document table, ingesting a
feed of one page with one qualifying entry (id "g1", parents containing the
watched folder "F1") and new resume cursor "C1" emits exactly that one
document event, records it once, starts one execution, returns the paging
loop's cursor "C1", and the released lease afterwards holds
locked = false and cursor "C1". -/
theorem c5_ingest_roundtrip :
    ingest
      [("channel_id", AttributeValue.S "ch1"), ("locked", AttributeValue.BOOL false),
       ("lock_expires", AttributeValue.N 0),
       ("changes_start_token", AttributeValue.S "C0")]
      []
      [Except.ok ⟨[⟨"file", false, ⟨"g1", "doc1", ["F1"], 1, some 1, some 2, false⟩⟩],
        "", "C1"⟩]
      (fun n => "u" ++ toString n) "F1" "n1" 100 "t" =
      { lease := [("channel_id", AttributeValue.S "ch1"),
                  ("locked", AttributeValue.BOOL false),
                  ("lock_expires", AttributeValue.N 30100),
                  ("changes_start_token", AttributeValue.S "C1"),
                  ("updated_at", AttributeValue.S "t")],
        docTable := [⟨"u0", "g1", "F1", "doc1", 1, 1, 2⟩],
        executions := [⟨"n1", "u0", "new"⟩],
        emitted := [⟨"u0", "g1", "F1", "doc1", 1, 1, 2⟩],
        nextCursor := "C1",
        result := Except.ok () } := by
  rfl

/-- C7 counterexample: a structurally valid signal with resource state
"sync" (not a file addition) is answered with the "invalid file
notification" body and HTTP status 500 — not a success response — although
no message is forwarded; the claim's "the original caller receives a
success response" is false on the code. -/
theorem c7_nonadd_signal_cex :
    webhookProcess [] ⟨"sync", "ch1", "res1"⟩ "n1" =
      ({ body := "invalid file notification", statusCode := 500 }, []) ∧
    (webhookProcess [] ⟨"sync", "ch1", "res1"⟩ "n1").1.statusCode ≠ 200 := by
  decide

/-- C7 amended: for every inbound signal whose resource state is not "add",
the relay forwards no message onto the queue and (while the lambda returns
no Go error) answers the caller with the "invalid file notification"
response carrying HTTP status 500, not a success; only addition signals can
produce a queued message. -/
theorem c7_nonadd_signal_amended :
    (∀ (registry : List WatchChannel) (req : NotificationHeaders) (nid : String),
      req.resourceState ≠ "add" →
      webhookProcess registry req nid =
        ({ body := "invalid file notification", statusCode := 500 }, [])) ∧
    (∀ (registry : List WatchChannel) (req : NotificationHeaders) (nid : String),
      (webhookProcess registry req nid).2 ≠ [] → req.resourceState = "add") := by
  constructor
  · intro registry req nid h
    simp [webhookProcess, queryWatchChannelForRequest, h]
  · intro registry req nid h
    by_contra hne
    exact h (by simp [webhookProcess, queryWatchChannelForRequest, hne])

/-- Witness for the amended C7: the concrete "sync" signal is dropped with
the 500 response and an empty queue. -/
theorem c7_nonadd_signal_amended_witness :
    webhookProcess [] ⟨"sync", "ch1", "res1"⟩ "n1" =
      ({ body := "invalid file notification", statusCode := 500 }, []) :=
  c7_nonadd_signal_amended.1 [] ⟨"sync", "ch1", "res1"⟩ "n1" (by decide)

/-- C8: stage lifecycle. `StartDocumentStage` creates the record with status
in-progress and `startedAt` stamped at creation, and a subsequent
`CompleteDocumentStage` at a strictly later time leaves the stored record
with status complete and a non-zero `completedAt` strictly greater than its
`startedAt`, persisting the fields the caller mutated on the record (such as
`stageFileName` and `s3Key`). -/
theorem c8_stage_lifecycle (table : List DocumentProcessingStage)
    (id stage name : String) (t1 t2 : Nat) (stRec : DocumentProcessingStage)
    (hid : stRec.id = id) (hst : stRec.stage = stage) (hstart : stRec.startedAt = t1)
    (ht : t1 < t2) :
    (startDocumentStage table id stage name t1).2 =
      { id := id, stage := stage, stageStatus := DOCUMENT_STATUS_INPROGRESS,
        startedAt := t1, completedAt := 0, originalFileName := name,
        stageFileName := "", s3Key := "" } ∧
    getDocumentStage (startDocumentStage table id stage name t1).1 id stage =
      (startDocumentStage table id stage name t1).2 ∧
    getDocumentStage
        (completeDocumentStage (startDocumentStage table id stage name t1).1 stRec t2).1
        id stage =
      { stRec with completedAt := t2, stageStatus := DOCUMENT_STATUS_COMPLETE } ∧
    (getDocumentStage
        (completeDocumentStage (startDocumentStage table id stage name t1).1 stRec t2).1
        id stage).stageStatus = DOCUMENT_STATUS_COMPLETE ∧
    (getDocumentStage
        (completeDocumentStage (startDocumentStage table id stage name t1).1 stRec t2).1
        id stage).startedAt <
      (getDocumentStage
        (completeDocumentStage (startDocumentStage table id stage name t1).1 stRec t2).1
        id stage).completedAt ∧
    (getDocumentStage
        (completeDocumentStage (startDocumentStage table id stage name t1).1 stRec t2).1
        id stage).completedAt ≠ 0 := by
  have hget2 : getDocumentStage
      (completeDocumentStage (startDocumentStage table id stage name t1).1 stRec t2).1
      id stage =
      { stRec with completedAt := t2, stageStatus := DOCUMENT_STATUS_COMPLETE } := by
    have := getStage_putStage
      (putStage table
        { id := id, stage := stage, stageStatus := DOCUMENT_STATUS_INPROGRESS,
          startedAt := t1, completedAt := 0, originalFileName := name,
          stageFileName := "", s3Key := "" })
      { stRec with completedAt := t2, stageStatus := DOCUMENT_STATUS_COMPLETE }
    simpa [completeDocumentStage, startDocumentStage, insertDocumentStage,
      hid, hst] using this
  refine ⟨rfl, ?_, hget2, ?_, ?_, ?_⟩
  · exact getStage_putStage table _
  · rw [hget2]
  · rw [hget2]
    simpa [hstart] using ht
  · rw [hget2]
    simp only [ne_eq]
    omega

/-- Witness for C8: a concrete start/complete pair at times 5 and 9, with
the caller having set `stageFileName` and `s3Key` on the record before
completing. -/
theorem c8_stage_lifecycle_witness :
    (startDocumentStage [] "d1" "mathpix" "file.pdf" 5).2 =
      { id := "d1", stage := "mathpix", stageStatus := DOCUMENT_STATUS_INPROGRESS,
        startedAt := 5, completedAt := 0, originalFileName := "file.pdf",
        stageFileName := "", s3Key := "" } ∧
    getDocumentStage (startDocumentStage [] "d1" "mathpix" "file.pdf" 5).1
        "d1" "mathpix" =
      (startDocumentStage [] "d1" "mathpix" "file.pdf" 5).2 ∧
    getDocumentStage
        (completeDocumentStage (startDocumentStage [] "d1" "mathpix" "file.pdf" 5).1
          { id := "d1", stage := "mathpix",
            stageStatus := DOCUMENT_STATUS_INPROGRESS, startedAt := 5,
            completedAt := 0, originalFileName := "file.pdf",
            stageFileName := "out.md", s3Key := "mathpix/out.md" } 9).1
        "d1" "mathpix" =
      { id := "d1", stage := "mathpix", stageStatus := DOCUMENT_STATUS_COMPLETE,
        startedAt := 5, completedAt := 9, originalFileName := "file.pdf",
        stageFileName := "out.md", s3Key := "mathpix/out.md" } ∧
    (getDocumentStage
        (completeDocumentStage (startDocumentStage [] "d1" "mathpix" "file.pdf" 5).1
          { id := "d1", stage := "mathpix",
            stageStatus := DOCUMENT_STATUS_INPROGRESS, startedAt := 5,
            completedAt := 0, originalFileName := "file.pdf",
            stageFileName := "out.md", s3Key := "mathpix/out.md" } 9).1
        "d1" "mathpix").stageStatus = DOCUMENT_STATUS_COMPLETE ∧
    (getDocumentStage
        (completeDocumentStage (startDocumentStage [] "d1" "mathpix" "file.pdf" 5).1
          { id := "d1", stage := "mathpix",
            stageStatus := DOCUMENT_STATUS_INPROGRESS, startedAt := 5,
            completedAt := 0, originalFileName := "file.pdf",
            stageFileName := "out.md", s3Key := "mathpix/out.md" } 9).1
        "d1" "mathpix").startedAt <
      (getDocumentStage
        (completeDocumentStage (startDocumentStage [] "d1" "mathpix" "file.pdf" 5).1
          { id := "d1", stage := "mathpix",
            stageStatus := DOCUMENT_STATUS_INPROGRESS, startedAt := 5,
            completedAt := 0, originalFileName := "file.pdf",
            stageFileName := "out.md", s3Key := "mathpix/out.md" } 9).1
        "d1" "mathpix").completedAt ∧
    (getDocumentStage
        (completeDocumentStage (startDocumentStage [] "d1" "mathpix" "file.pdf" 5).1
          { id := "d1", stage := "mathpix",
            stageStatus := DOCUMENT_STATUS_INPROGRESS, startedAt := 5,
            completedAt := 0, originalFileName := "file.pdf",
            stageFileName := "out.md", s3Key := "mathpix/out.md" } 9).1
        "d1" "mathpix").completedAt ≠ 0 := by
  exact c8_stage_lifecycle [] "d1" "mathpix" "file.pdf" 5 9
    { id := "d1", stage := "mathpix", stageStatus := DOCUMENT_STATUS_INPROGRESS,
      startedAt := 5, completedAt := 0, originalFileName := "file.pdf",
      stageFileName := "out.md", s3Key := "mathpix/out.md" }
    rfl rfl rfl (by decide)

end Scriptor
